import Mathlib

/-!
Shallow embedding of the query-routing and retrieval pipeline of the
MultiAgent-Voice-Intelligence backend, together with proofs about the
behaviour its specification describes.

The embedding translates the Python sources:
  app/services/vector_store.py   (VectorStoreService)
  app/services/orchestrator.py   (OrchestratorAgent.route_query)
  app/services/document_loader.py (DocumentLoader)
  app/services/specialized_agents.py (BaseSpecializedAgent.process_query)
  app/routers/chat.py            (send_message and the session map)

External collaborators (the FAISS similarity search, the LLM calls, the
json module, the file system, the per-format document parsers and the text
splitter) are not code of this repository; they appear as explicit
parameters of the translated functions, so every theorem states exactly
which assumption about a collaborator it uses.  Python floats are rendered
as rationals, Python dicts as association lists with in-place update.
-/

/-- Lookup in a Python dict rendered as an association list (`d[k]` / `d.get(k)`). -/
def dictGet {α : Type} : List (String × α) → String → Option α
  | [], _ => none
  | (k2, v) :: rest, k => if k2 = k then some v else dictGet rest k

/-- Assignment `d[k] = v`: replace the binding in place, or append a fresh one. -/
def dictSet {α : Type} : List (String × α) → String → α → List (String × α)
  | [], k, v => [(k, v)]
  | (k2, v2) :: rest, k, v =>
      if k2 = k then (k, v) :: rest else (k2, v2) :: dictSet rest k v

/-- Deletion `del d[k]`. -/
def dictRemove {α : Type} (d : List (String × α)) (k : String) : List (String × α) :=
  d.filter (fun p => decide (p.1 ≠ k))

/-- Membership test `k in d`. -/
def dictContains {α : Type} (d : List (String × α)) (k : String) : Bool :=
  (dictGet d k).isSome

/-- Python `s[:n]` on a string. -/
def strTake (s : String) (n : Nat) : String :=
  String.mk (s.data.take n)

/-- Whether `needle` occurs at the head of `hay` (character lists). -/
def charsBeginWith : List Char → List Char → Bool
  | [], _ => true
  | _ :: _, [] => false
  | n :: ns, h :: hs => n = h && charsBeginWith ns hs

/-- Whether `needle` occurs somewhere inside `hay` (character lists). -/
def charsContain (needle : List Char) : List Char → Bool
  | [] => charsBeginWith needle []
  | c :: rest => charsBeginWith needle (c :: rest) || charsContain needle rest

/-- Python substring containment `needle in hay`. -/
def strContains (hay needle : String) : Bool :=
  charsContain needle.data hay.data

/-- Python `s.lower()` (the queries and keywords here are ASCII). -/
def strToLower (s : String) : String :=
  String.mk (s.data.map Char.toLower)

/-- langchain `Document`: page content plus a metadata dict. -/
structure LCDocument where
  page_content : String
  metadata : List (String × String)
deriving DecidableEq

/-- Abstract stand-in for a FAISS vector store; its contents only matter to
the external similarity-search function that theorems take as a parameter. -/
structure FAISS where
  docs : List LCDocument
deriving DecidableEq

/-- State of app/services/vector_store.py VectorStoreService: the in-memory
map `vector_stores` and the names persisted on disk under
`vector_store_path`. -/
structure VectorStoreService where
  vector_stores : List (String × FAISS)
  disk_stores : List String
deriving DecidableEq

/-- VectorStoreService.search (vector_store.py lines 111-151).
`simScore` is the external langchain call
`vector_store.similarity_search_with_score(query, k=k)`. -/
def VectorStoreService.search (svc : VectorStoreService)
    (simScore : FAISS → String → Nat → List (LCDocument × ℚ))
    (agent query : String) (k : Nat) (threshold : ℚ) : List (LCDocument × ℚ) :=
  match dictGet svc.vector_stores agent with
  | none => []
  | some vector_store =>
      (simScore vector_store query k).filter (fun p => decide (threshold ≤ p.2))

/-- VectorStoreService.clear_store (vector_store.py lines 188-211): drop the
in-memory entry and unlink the persisted files. -/
def VectorStoreService.clear_store (svc : VectorStoreService) (agent : String) :
    VectorStoreService :=
  { vector_stores := dictRemove svc.vector_stores agent,
    disk_stores := svc.disk_stores.filter (fun s => decide (s ≠ agent)) }

/-- VectorStoreService.remove_document (vector_store.py lines 170-186): an
early return when the agent has no store; otherwise it calls
`_rebuild_store_without_file`, whose body (lines 239-242) only logs and is
otherwise `pass` — a no-op stub. -/
def VectorStoreService.remove_document (svc : VectorStoreService)
    (agent _filename : String) : VectorStoreService :=
  if dictContains svc.vector_stores agent then
    svc
  else
    svc

/-- The keyword list for the general agent fast path
(orchestrator.py lines 67-69). -/
def general_keywords : List String :=
  ["weather", "temperature", "forecast", "rain", "sunny",
   "calculate", "math", "time", "timezone", "what time",
   "hello", "hi", "how are you", "thank"]

/-- Medical keywords (orchestrator.py lines 79-80). -/
def medical_keywords : List String :=
  ["sick", "ill", "pain", "symptom", "disease", "health",
   "medical", "doctor", "medicine", "treatment", "diagnosis"]

/-- AI/ML keywords (orchestrator.py lines 86-88). -/
def ai_keywords : List String :=
  ["ai", "ml", "machine learning", "neural", "deep learning",
   "model", "algorithm", "training", "dataset", "tensorflow",
   "pytorch", "scikit", "nlp", "computer vision"]

/-- Real-estate keywords (orchestrator.py lines 94-95). -/
def real_estate_keywords : List String :=
  ["property", "house", "apartment", "real estate",
   "mortgage", "rent", "buy house", "sell house"]

/-- Sales keywords (orchestrator.py lines 101-102). -/
def sales_keywords : List String :=
  ["sales", "customer", "client", "revenue", "deal",
   "lead", "crm", "pipeline", "quota", "prospect"]

/-- Education keywords (orchestrator.py lines 108-109). -/
def education_keywords : List String :=
  ["learn", "study", "education", "course", "teach",
   "school", "university", "exam", "homework", "curriculum"]

/-- Python `any(keyword in query_lower for keyword in keywords)`. -/
def keywordHit (query_lower : String) (keywords : List String) : Bool :=
  keywords.any (fun kw => strContains query_lower kw)

/-- The six keyword tables in the priority order the code tests them. -/
def keywordSet : Fin 6 → String × List String
  | ⟨0, _⟩ => ("general", general_keywords)
  | ⟨1, _⟩ => ("medical", medical_keywords)
  | ⟨2, _⟩ => ("ai_ml", ai_keywords)
  | ⟨3, _⟩ => ("real_estate", real_estate_keywords)
  | ⟨4, _⟩ => ("sales", sales_keywords)
  | ⟨5, _⟩ => ("education", education_keywords)

/-- Outcome of the external classifier call `self.llm.ainvoke(messages)`:
either the call raised (timeout, transport error, ...) or it produced a
reply whose content is a string. -/
inductive ClassifierResult
  | callError
  | reply (content : String)
deriving DecidableEq

/-- Outcome of the external `json.loads` on the extracted JSON text:
either a JSONDecodeError, or a parsed object whose
`routing_decision.get("primary_agent", "general")` is the given string
(a missing key surfaces here as "general"). -/
inductive RoutingParse
  | decodeError
  | parsed (primary_agent : String)
deriving DecidableEq

def openBraceChar : Char := '\x7b'

def closeBraceChar : Char := '\x7d'

/-- Index of the first occurrence of a character. -/
def firstIdxOf (c : Char) : List Char → Option Nat
  | [] => none
  | a :: as => if a = c then some 0 else (firstIdxOf c as).map (· + 1)

/-- Index of the last occurrence of a character. -/
def lastIdxOf (c : Char) (l : List Char) : Option Nat :=
  (firstIdxOf c l.reverse).map (fun i => l.length - 1 - i)

/-- The greedy regex search in orchestrator.py line 125 with DOTALL:
it matches from the first open brace to the last close brace, provided the
last close brace comes after the first open brace. -/
def extractJson (text : String) : Option String :=
  match firstIdxOf openBraceChar text.data, lastIdxOf closeBraceChar text.data with
  | some i, some j =>
      if i ≤ j then some (String.mk ((text.data.drop i).take (j - i + 1))) else none
  | some _, none => none
  | none, _ => none

/-- The valid agent names checked in orchestrator.py line 140. -/
def valid_agents : List String :=
  ["general", "real_estate", "medical", "ai_ml", "sales", "education"]

/-- The LLM tier of OrchestratorAgent.route_query (orchestrator.py lines
114-153): extract the first JSON object from the reply, parse it, validate
the primary agent, and fall back to "general" on any failure.  The outer
try/except of route_query catches a failing call itself, also yielding
"general". -/
def routeLLMFallback (classifier : ClassifierResult)
    (jsonLoads : String → RoutingParse) : String :=
  match classifier with
  | .callError => "general"
  | .reply content =>
      match extractJson content with
      | none => "general"
      | some js =>
          match jsonLoads js with
          | .decodeError => "general"
          | .parsed primary_agent =>
              if valid_agents.contains primary_agent then primary_agent else "general"

/-- Result of route_query: the chosen agent, and whether the LLM classifier
tier was invoked (false when a keyword fast path decided). -/
structure RouteOutcome where
  agent : String
  classifierInvoked : Bool
deriving DecidableEq

/-- OrchestratorAgent.route_query (orchestrator.py lines 55-153): six
keyword fast paths tested in order on the lower-cased query, then the LLM
classifier tier. -/
def route_query (query : String) (classifier : ClassifierResult)
    (jsonLoads : String → RoutingParse) : RouteOutcome :=
  let query_lower := strToLower query
  if keywordHit query_lower general_keywords then ⟨"general", false⟩
  else if keywordHit query_lower medical_keywords then ⟨"medical", false⟩
  else if keywordHit query_lower ai_keywords then ⟨"ai_ml", false⟩
  else if keywordHit query_lower real_estate_keywords then ⟨"real_estate", false⟩
  else if keywordHit query_lower sales_keywords then ⟨"sales", false⟩
  else if keywordHit query_lower education_keywords then ⟨"education", false⟩
  else ⟨routeLLMFallback classifier jsonLoads, true⟩

/-- Errors raised by DocumentLoader.load_single_document: the ValueError
"File ... does not exist", the ValueError "Unsupported file type", and a
re-raised error from the external per-format parser or splitter. -/
inductive LoadError
  | sourceNotFound
  | unsupportedFormat
  | parseError (msg : String)
deriving DecidableEq

/-- A file as the loader observes it through the file system: its path and
name, whether `Path.exists()` holds, whether `Path.is_file()` holds, the
lower-cased `Path.suffix`, and the outcome of the external format parser
(`loader_func(file_path)` in document_loader.py line 101). -/
structure FileModel where
  path : String
  name : String
  fsExists : Bool
  fsIsFile : Bool
  suffixLower : String
  parsed : Except String (List LCDocument)

/-- Keys of loader_mapping (document_loader.py lines 36-43). -/
def supportedExtensions : List String :=
  [".pdf", ".txt", ".docx", ".doc", ".md", ".csv"]

/-- Assignment into a metadata dict (`doc.metadata.update {...}`). -/
def metaSet (m : List (String × String)) (k v : String) : List (String × String) :=
  dictSet m k v

/-- State of DocumentLoader: the external RecursiveCharacterTextSplitter,
abstracted as the function `split_documents`. -/
structure DocumentLoader where
  split_documents : List LCDocument → List LCDocument

/-- DocumentLoader.load_single_document (document_loader.py lines 75-125):
check existence, check the extension against loader_mapping, run the
external parser, stamp source metadata, split into chunks and stamp chunk
metadata; parser errors are logged and re-raised. -/
def DocumentLoader.load_single_document (dl : DocumentLoader) (f : FileModel) :
    Except LoadError (List LCDocument) :=
  if f.fsExists = false then
    .error .sourceNotFound
  else if supportedExtensions.contains f.suffixLower = false then
    .error .unsupportedFormat
  else
    match f.parsed with
    | .error msg => .error (.parseError msg)
    | .ok raw_documents =>
        let tagged := raw_documents.map (fun doc =>
          { doc with metadata :=
              metaSet (metaSet (metaSet doc.metadata
                "source" f.path) "filename" f.name) "file_type" f.suffixLower })
        let chunks := dl.split_documents tagged
        .ok ((chunks.enum).map (fun p =>
          { p.2 with metadata :=
              metaSet (metaSet p.2.metadata
                "chunk_index" (toString p.1)) "total_chunks" (toString chunks.length) }))

/-- DocumentLoader.load_documents (document_loader.py lines 45-73): a
missing directory yields the empty list; otherwise every regular file is
loaded in turn, a file whose load raises is logged and skipped, and the
chunks of the others are concatenated in order. -/
def DocumentLoader.load_documents (dl : DocumentLoader)
    (directory : Option (List FileModel)) : List LCDocument :=
  match directory with
  | none => []
  | some files =>
      files.foldl (fun documents f =>
        if f.fsIsFile then
          match dl.load_single_document f with
          | .ok file_docs => documents ++ file_docs
          | .error _ => documents
        else documents) []

/-- A message in ConversationBufferMemory.chat_memory.messages. -/
inductive ChatMessage
  | user (text : String)
  | ai (text : String)
deriving DecidableEq

/-- One entry of the `sources` list built in specialized_agents.py lines
113-117. -/
structure SourceEntry where
  content : String
  metadata : List (String × String)
  score : ℚ
deriving DecidableEq

/-- The dict returned by BaseSpecializedAgent.process_query (lines 140-145). -/
structure ProcessResult where
  response : String
  sources : Option (List SourceEntry)
  agent : String
  tokens_used : Nat
deriving DecidableEq

/-- BaseSpecializedAgent.process_query (specialized_agents.py lines 80-149).
`agentInvoke` is the external reasoning step `self.agent.ainvoke` applied to
the enhanced query and the chat history; it either raises or yields the
output text.  On success the memory gains the user query then the answer;
a raising reasoning step re-raises before any memory write.  The returned
pair carries the (possibly updated) memory and the result dict. -/
def process_query (agent_name : String) (svc : VectorStoreService)
    (simScore : FAISS → String → Nat → List (LCDocument × ℚ))
    (agentInvoke : String → List ChatMessage → Except Unit String)
    (query : String) (memory : Option (List ChatMessage)) (include_sources : Bool) :
    Except Unit (Option (List ChatMessage) × ProcessResult) :=
  let searched : String × List SourceEntry :=
    if include_sources then
      let search_results := svc.search simScore agent_name query 5 (7/10)
      if search_results ≠ [] then
        (search_results.foldl
            (fun context p => context ++ "\n- " ++ strTake p.1.page_content 500 ++ "...")
            "\n\nRelevant information from knowledge base:\n",
         search_results.map (fun p =>
            ⟨strTake p.1.page_content 200, p.1.metadata, p.2⟩))
      else ("", [])
    else ("", [])
  let context := searched.1
  let sources := searched.2
  let enhanced_query := if context = "" then query else query ++ "\n" ++ context
  let chat_history := memory.getD []
  match agentInvoke enhanced_query chat_history with
  | .error e => .error e
  | .ok output =>
      let memory2 := memory.map (fun m => m ++ [ChatMessage.user query, ChatMessage.ai output])
      .ok (memory2, ⟨output, if include_sources then some sources else none, agent_name, 0⟩)

/-- One entry of the module-level `sessions` dict in chat.py (lines 75-81):
the conversation memory, creation timestamp, message count, and the list of
agents used. -/
structure Session where
  memoryMessages : List ChatMessage
  created_at : String
  message_count : Nat
  agents_used : List String
deriving DecidableEq

/-- The ChatRequest model (chat.py lines 35-40). -/
structure ChatRequest where
  message : String
  session_id : Option String
  agent_override : Option String
  include_sources : Bool
deriving DecidableEq

/-- The part of ChatResponse relevant here (chat.py lines 42-49); timing
metrics are real-time quantities and are omitted. -/
structure ChatResponse where
  response : String
  session_id : String
  agent_used : String
  sources : Option (List SourceEntry)
deriving DecidableEq

/-- The keys of SpecializedAgentFactory.agents (specialized_agents.py lines
349-356); get_agent raises ValueError for any other name. -/
def factory_agents : List String :=
  ["general", "real_estate", "medical", "ai_ml", "sales", "education"]

/-- Python `request.session_id or str(uuid.uuid4())`: None and the empty
string are falsy and give the fresh id. -/
def pyOr (o : Option String) (fresh : String) : String :=
  match o with
  | none => fresh
  | some s => if s = "" then fresh else s

/-- The session dict created in chat.py lines 76-81. -/
def newSession (now : String) : Session :=
  ⟨[], now, 0, []⟩

/-- Everything send_message returns to its environment: the updated
`sessions` dict, the HTTP result (a ChatResponse, or a 500 error raised via
HTTPException), the agent the turn dispatched to, and whether the
orchestrator router was invoked. -/
structure SendOutcome where
  sessions : List (String × Session)
  result : Except String ChatResponse
  selectedAgent : String
  routerInvoked : Bool

/-- send_message (chat.py lines 58-148).  In source order: resolve or
create the session; increment message_count; pick the agent (the override
if truthy, else route_query); record the agent in agents_used; fetch the
agent from the factory (ValueError for an unknown name, caught by the outer
except into an HTTP 500); run process_query (an exception likewise becomes
an HTTP 500); on success the memory written by process_query is visible in
the session.  Session mutations are in-place on the dict entry, so they
survive a later exception; every exit carries the same selected agent and
router flag, which the final structure records once. -/
def send_message (sessions : List (String × Session)) (request : ChatRequest)
    (freshId now : String) (classifier : ClassifierResult)
    (jsonLoads : String → RoutingParse) (svc : VectorStoreService)
    (simScore : FAISS → String → Nat → List (LCDocument × ℚ))
    (agentInvoke : String → String → List ChatMessage → Except Unit String) :
    SendOutcome :=
  let session_id := pyOr request.session_id freshId
  let sessions1 :=
    if dictContains sessions session_id then sessions
    else dictSet sessions session_id (newSession now)
  let session0 := (dictGet sessions1 session_id).getD (newSession now)
  let session1 := { session0 with message_count := session0.message_count + 1 }
  let sel : String × Bool :=
    match request.agent_override with
    | some ov =>
        if ov = "" then ((route_query request.message classifier jsonLoads).agent, true)
        else (ov, false)
    | none => ((route_query request.message classifier jsonLoads).agent, true)
  let selected_agent := sel.1
  let session2 :=
    if selected_agent ∈ session1.agents_used then session1
    else { session1 with agents_used := session1.agents_used ++ [selected_agent] }
  let sessions2 := dictSet sessions1 session_id session2
  let branch : List (String × Session) × Except String ChatResponse :=
    if factory_agents.contains selected_agent then
      match process_query selected_agent svc simScore (agentInvoke selected_agent)
          request.message (some session2.memoryMessages) request.include_sources with
      | .error _ => (sessions2, .error "Failed to process message")
      | .ok (memory2, result) =>
          let session3 :=
            { session2 with memoryMessages := memory2.getD session2.memoryMessages }
          (dictSet sessions2 session_id session3,
           .ok ⟨result.response, session_id, selected_agent,
                if request.include_sources then result.sources else none⟩)
    else (sessions2, .error "Failed to process message")
  ⟨branch.1, branch.2, selected_agent, sel.2⟩

/-- The failure condition of the classifier tier, as the routing code
distinguishes the cases: the call raised, or the reply holds no JSON
object, or the JSON does not decode, or the decoded primary agent is not
one of the six known identities. -/
def classifierTierFailed (classifier : ClassifierResult)
    (jsonLoads : String → RoutingParse) : Bool :=
  match classifier with
  | .callError => true
  | .reply content =>
      match extractJson content with
      | none => true
      | some js =>
          match jsonLoads js with
          | .decodeError => true
          | .parsed primary_agent => !(valid_agents.contains primary_agent)

/-- A concrete similarity oracle for instantiations: two hits with scores
2 and 1, truncated to k. -/
def sampleOracle : FAISS → String → Nat → List (LCDocument × ℚ) :=
  fun _ _ k => ([(⟨"alpha", []⟩, (2 : ℚ)), (⟨"beta", []⟩, (1 : ℚ))]).take k

/-- An oracle that finds nothing. -/
def emptyOracle : FAISS → String → Nat → List (LCDocument × ℚ) :=
  fun _ _ _ => []

/-- A service holding one (empty) store for the general agent. -/
def sampleSvc : VectorStoreService := ⟨[("general", ⟨[]⟩)], ["general"]⟩

/-- A service holding no stores at all. -/
def emptySvc : VectorStoreService := ⟨[], []⟩

/-- A reasoning step that always raises. -/
def failingInvoke : String → String → List ChatMessage → Except Unit String :=
  fun _ _ _ => .error ()

/-- A reasoning step that always answers. -/
def okInvoke : String → String → List ChatMessage → Except Unit String :=
  fun _ _ _ => .ok "the answer"

/-- A sessions map with one established session. -/
def sampleSessions : List (String × Session) :=
  [("s1", ⟨[], "t0", 3, ["general"]⟩)]

/-- A request against session s1 carrying a valid override. -/
def overrideFailRequest : ChatRequest := ⟨"zzz", some "s1", some "medical", false⟩

/-- A clearly real-estate query carrying an override outside the known six. -/
def bogusOverrideRequest : ChatRequest :=
  ⟨"rent a flat near the center", none, some "bogus", false⟩

/-- A clearly real-estate query carrying the medical override. -/
def medicalOverrideRequest : ChatRequest :=
  ⟨"rent a flat near the center", none, some "medical", false⟩

/-- A first-turn request without a session id. -/
def firstTurnRequest : ChatRequest := ⟨"zzz", none, none, false⟩

/-- A second-turn request reusing session id f1. -/
def secondTurnRequest : ChatRequest := ⟨"zzz", some "f1", none, false⟩

/-- A document loader whose external splitter passes documents through. -/
def idSplitter : DocumentLoader := ⟨id⟩

/-- A path that does not exist and carries an unsupported extension. -/
def missingXyzFile : FileModel :=
  ⟨"/docs/a.xyz", "a.xyz", false, true, ".xyz", .ok []⟩

/-- An existing file with an unsupported extension. -/
def oddExtFile : FileModel :=
  ⟨"/docs/b.xyz", "b.xyz", true, true, ".xyz", .ok []⟩

theorem dictGet_dictSet_same {α : Type} (d : List (String × α)) (k : String) (v : α) :
    dictGet (dictSet d k v) k = some v := by
  induction d with
  | nil => simp [dictSet, dictGet]
  | cons p rest ih =>
      by_cases h : p.1 = k
      · simp [dictSet, dictGet, h]
      · simp [dictSet, dictGet, h, ih]

theorem dictGet_dictRemove_same {α : Type} (d : List (String × α)) (k : String) :
    dictGet (dictRemove d k) k = none := by
  induction d with
  | nil => rfl
  | cons p rest ih =>
      by_cases h : p.1 = k
      · simpa [dictRemove, List.filter, h] using ih
      · simpa [dictRemove, List.filter, h, dictGet] using ih

theorem dictContains_of_get {α : Type} {d : List (String × α)} {k : String} {v : α}
    (h : dictGet d k = some v) : dictContains d k = true := by
  simp [dictContains, h]

/-- C1: search returns at most k results, ordered by descending score,
every returned score at least the threshold — given that the external
similarity search itself returns at most k results in descending-score
order, as the specification describes it. -/
theorem search_contract (svc : VectorStoreService)
    (simScore : FAISS → String → Nat → List (LCDocument × ℚ))
    (agent query : String) (k : Nat) (threshold : ℚ)
    (hk : ∀ vs, (simScore vs query k).length ≤ k)
    (hsorted : ∀ vs, (simScore vs query k).Pairwise (fun a b => b.2 ≤ a.2)) :
    (svc.search simScore agent query k threshold).length ≤ k ∧
    (svc.search simScore agent query k threshold).Pairwise (fun a b => b.2 ≤ a.2) ∧
    ∀ p ∈ svc.search simScore agent query k threshold, threshold ≤ p.2 := by
  cases hg : dictGet svc.vector_stores agent with
  | none =>
      have hs : svc.search simScore agent query k threshold = [] := by
        unfold VectorStoreService.search
        rw [hg]
      rw [hs]
      simp
  | some vs =>
      have hs : svc.search simScore agent query k threshold
          = (simScore vs query k).filter (fun p => decide (threshold ≤ p.2)) := by
        unfold VectorStoreService.search
        rw [hg]
      rw [hs]
      refine ⟨?_, ?_, ?_⟩
      · exact le_trans (List.length_filter_le _ _) (hk vs)
      · exact (hsorted vs).sublist (List.filter_sublist _)
      · intro q hq
        exact of_decide_eq_true (List.mem_filter.mp hq).2

theorem search_contract_witness :
    (sampleSvc.search sampleOracle "general" "q" 5 1).length ≤ 5 ∧
    (sampleSvc.search sampleOracle "general" "q" 5 1).Pairwise (fun a b => b.2 ≤ a.2) ∧
    ∀ p ∈ sampleSvc.search sampleOracle "general" "q" 5 1, (1 : ℚ) ≤ p.2 :=
  search_contract sampleSvc sampleOracle "general" "q" 5 1
    (fun vs => by
      show (([((⟨"alpha", []⟩ : LCDocument), (2 : ℚ)),
              (⟨"beta", []⟩, (1 : ℚ))]).take 5).length ≤ 5
      decide)
    (fun vs => by
      show (([((⟨"alpha", []⟩ : LCDocument), (2 : ℚ)),
              (⟨"beta", []⟩, (1 : ℚ))]).take 5).Pairwise (fun a b => b.2 ≤ a.2)
      decide)

/-- C5: an agent with no index gives the empty result rather than an error,
and clear_store followed by search on the same agent always gives the
empty result. -/
theorem search_no_index_empty (svc : VectorStoreService)
    (simScore : FAISS → String → Nat → List (LCDocument × ℚ))
    (agent query : String) (k : Nat) (threshold : ℚ) :
    (dictGet svc.vector_stores agent = none →
      svc.search simScore agent query k threshold = []) ∧
    (svc.clear_store agent).search simScore agent query k threshold = [] := by
  constructor
  · intro h
    unfold VectorStoreService.search
    rw [h]
  · unfold VectorStoreService.search VectorStoreService.clear_store
    rw [show (VectorStoreService.mk (dictRemove svc.vector_stores agent)
        (svc.disk_stores.filter (fun s => decide (s ≠ agent)))).vector_stores
      = dictRemove svc.vector_stores agent from rfl]
    rw [dictGet_dictRemove_same]

theorem search_no_index_empty_witness :
    emptySvc.search emptyOracle "medical" "q" 5 1 = [] ∧
    (sampleSvc.clear_store "general").search emptyOracle "general" "q" 5 1 = [] :=
  ⟨(search_no_index_empty emptySvc emptyOracle "medical" "q" 5 1).1 rfl,
   (search_no_index_empty sampleSvc emptyOracle "general" "q" 5 1).2⟩

/-- C9: remove_document leaves the searchable index unchanged — its rebuild
step is a no-op — so any later search returns exactly what it returned
before the removal, chunks of the removed file included. -/
theorem remove_document_search_frame (svc : VectorStoreService)
    (simScore : FAISS → String → Nat → List (LCDocument × ℚ))
    (agent filename agent2 query : String) (k : Nat) (threshold : ℚ) :
    (svc.remove_document agent filename).search simScore agent2 query k threshold
      = svc.search simScore agent2 query k threshold := by
  unfold VectorStoreService.remove_document
  split <;> rfl

/-- C2: when some keyword of table i occurs in the lower-cased query and no
earlier table in the declared priority order has a hit, route_query answers
with table i identity on the fast path, without invoking the classifier. -/
theorem route_fastpath_priority (query : String) (classifier : ClassifierResult)
    (jsonLoads : String → RoutingParse) (i : Fin 6)
    (hhit : keywordHit (strToLower query) (keywordSet i).2 = true)
    (hearlier : ∀ j, j < i → keywordHit (strToLower query) (keywordSet j).2 = false) :
    route_query query classifier jsonLoads = ⟨(keywordSet i).1, false⟩ := by
  fin_cases i
  · simp only [keywordSet] at hhit ⊢
    simp [route_query, hhit]
  · have e0 := hearlier 0 (by decide)
    simp only [keywordSet] at hhit e0 ⊢
    simp [route_query, hhit, e0]
  · have e0 := hearlier 0 (by decide)
    have e1 := hearlier 1 (by decide)
    simp only [keywordSet] at hhit e0 e1 ⊢
    simp [route_query, hhit, e0, e1]
  · have e0 := hearlier 0 (by decide)
    have e1 := hearlier 1 (by decide)
    have e2 := hearlier 2 (by decide)
    simp only [keywordSet] at hhit e0 e1 e2 ⊢
    simp [route_query, hhit, e0, e1, e2]
  · have e0 := hearlier 0 (by decide)
    have e1 := hearlier 1 (by decide)
    have e2 := hearlier 2 (by decide)
    have e3 := hearlier 3 (by decide)
    simp only [keywordSet] at hhit e0 e1 e2 e3 ⊢
    simp [route_query, hhit, e0, e1, e2, e3]
  · have e0 := hearlier 0 (by decide)
    have e1 := hearlier 1 (by decide)
    have e2 := hearlier 2 (by decide)
    have e3 := hearlier 3 (by decide)
    have e4 := hearlier 4 (by decide)
    simp only [keywordSet] at hhit e0 e1 e2 e3 e4 ⊢
    simp [route_query, hhit, e0, e1, e2, e3, e4]

theorem route_fastpath_priority_witness :
    route_query "what is the weather in Paris" .callError (fun _ => .decodeError)
      = ⟨"general", false⟩ :=
  route_fastpath_priority "what is the weather in Paris" .callError (fun _ => .decodeError)
    0 (by decide) (by decide)

/-- C3: when no keyword table matches and the classifier tier fails in any
of the distinguished ways, route_query answers general through the
classifier tier; route_query is a total function, so no exception reaches
its caller. -/
theorem route_classifier_failure_general (query : String) (classifier : ClassifierResult)
    (jsonLoads : String → RoutingParse)
    (hmiss : ∀ i : Fin 6, keywordHit (strToLower query) (keywordSet i).2 = false)
    (hfail : classifierTierFailed classifier jsonLoads = true) :
    route_query query classifier jsonLoads = ⟨"general", true⟩ := by
  have h0 := hmiss 0
  have h1 := hmiss 1
  have h2 := hmiss 2
  have h3 := hmiss 3
  have h4 := hmiss 4
  have h5 := hmiss 5
  simp only [keywordSet] at h0 h1 h2 h3 h4 h5
  have hfb : routeLLMFallback classifier jsonLoads = "general" := by
    cases classifier with
    | callError => rfl
    | reply content =>
        simp only [classifierTierFailed] at hfail
        cases hE : extractJson content with
        | none => simp [routeLLMFallback, hE]
        | some js =>
            simp only [hE] at hfail
            cases hJ : jsonLoads js with
            | decodeError => simp [routeLLMFallback, hE, hJ]
            | parsed p =>
                simp only [hJ] at hfail
                simp only [Bool.not_eq_true'] at hfail
                simp only [routeLLMFallback, hE, hJ]
                rw [hfail]
                simp
  simp [route_query, h0, h1, h2, h3, h4, h5, hfb]

theorem route_classifier_failure_general_witness :
    route_query "zzz" (ClassifierResult.reply "no structured reply")
      (fun _ => RoutingParse.parsed "general") = ⟨"general", true⟩ :=
  route_classifier_failure_general "zzz" (ClassifierResult.reply "no structured reply")
    (fun _ => RoutingParse.parsed "general") (by decide) (by decide)

/-- C10: the fast path tests raw substring containment, so the pair hi
inside the word which routes to general, and the pair ai inside the word
maintain routes to ai_ml once no earlier table matches — in both cases
without any classifier call, whatever the classifier would have said. -/
theorem route_substring_fastpath (classifier : ClassifierResult)
    (jsonLoads : String → RoutingParse) :
    route_query "Which of these is better for me" classifier jsonLoads
        = ⟨"general", false⟩ ∧
      route_query "We must maintain our fleet of trucks" classifier jsonLoads
        = ⟨"ai_ml", false⟩ :=
  ⟨rfl, rfl⟩

theorem load_documents_foldl_acc (dl : DocumentLoader) (files : List FileModel)
    (acc : List LCDocument) :
    files.foldl (fun documents f =>
        if f.fsIsFile then
          match dl.load_single_document f with
          | .ok file_docs => documents ++ file_docs
          | .error _ => documents
        else documents) acc
      = acc ++ (files.map (fun g =>
          if g.fsIsFile then
            match dl.load_single_document g with
            | .ok file_docs => file_docs
            | .error _ => []
          else [])).flatten := by
  induction files generalizing acc with
  | nil => simp
  | cons f rest ih =>
      simp only [List.foldl_cons, List.map_cons, List.flatten]
      rw [ih]
      cases hf : f.fsIsFile with
      | false => simp
      | true =>
          cases hl : dl.load_single_document f with
          | ok file_docs => simp [List.append_assoc]
          | error e => simp

/-- C8 (amended): the loader checks existence before the extension, so a
missing path always fails with the source-not-found error; for an existing
path the unsupported-format error occurs exactly when the extension is
outside the supported set; and batch loading concatenates the chunks of
exactly the regular files whose individual load succeeds, skipping every
failing file. -/
theorem ingestion_error_contract (dl : DocumentLoader) (f : FileModel)
    (files : List FileModel) :
    (f.fsExists = false → dl.load_single_document f = .error .sourceNotFound) ∧
    (f.fsExists = true →
      (dl.load_single_document f = .error .unsupportedFormat ↔
        supportedExtensions.contains f.suffixLower = false)) ∧
    dl.load_documents (some files)
      = (files.map (fun g =>
          if g.fsIsFile then
            match dl.load_single_document g with
            | .ok file_docs => file_docs
            | .error _ => []
          else [])).flatten := by
  refine ⟨?_, ?_, ?_⟩
  · intro h
    simp [DocumentLoader.load_single_document, h]
  · intro h
    constructor
    · intro hres
      by_contra hc
      simp only [Bool.not_eq_false] at hc
      simp only [DocumentLoader.load_single_document, h, hc] at hres
      cases hp : f.parsed with
      | error msg => simp [hp] at hres
      | ok raw => simp [hp] at hres
    · intro hc
      have hc2 : f.suffixLower ∉ supportedExtensions := by simpa using hc
      simp [DocumentLoader.load_single_document, h, hc, hc2]
  · rw [DocumentLoader.load_documents]
    exact load_documents_foldl_acc dl files []

theorem ingestion_error_contract_witness :
    idSplitter.load_single_document missingXyzFile
        = .error .sourceNotFound ∧
      (idSplitter.load_single_document oddExtFile = .error .unsupportedFormat ↔
        supportedExtensions.contains ".xyz" = false) :=
  ⟨(ingestion_error_contract idSplitter missingXyzFile []).1 rfl,
   (ingestion_error_contract idSplitter oddExtFile []).2.1 rfl⟩

/-- C8 counterexample: a path that does not exist and whose extension is
outside the supported set fails with the source-not-found error, not with
the unsupported-format error the claim requires for every unsupported
extension. -/
theorem missing_unsupported_file_error :
    idSplitter.load_single_document missingXyzFile = .error .sourceNotFound ∧
    supportedExtensions.contains missingXyzFile.suffixLower = false ∧
    LoadError.sourceNotFound ≠ LoadError.unsupportedFormat :=
  ⟨rfl, by decide, by decide⟩

theorem process_query_raises (agent_name : String) (svc : VectorStoreService)
    (simScore : FAISS → String → Nat → List (LCDocument × ℚ))
    (agentInvoke : String → List ChatMessage → Except Unit String)
    (query : String) (memory : Option (List ChatMessage)) (include_sources : Bool)
    (hinv : ∀ q h, agentInvoke q h = Except.error ()) :
    process_query agent_name svc simScore agentInvoke query memory include_sources
      = Except.error () := by
  unfold process_query
  simp [hinv]

theorem process_query_succeeds (agent_name : String) (svc : VectorStoreService)
    (simScore : FAISS → String → Nat → List (LCDocument × ℚ))
    (agentInvoke : String → List ChatMessage → Except Unit String)
    (query : String) (memory : List ChatMessage) (include_sources : Bool) (ans : String)
    (hinv : ∀ q h, agentInvoke q h = Except.ok ans) :
    ∃ res : ProcessResult,
      process_query agent_name svc simScore agentInvoke query (some memory) include_sources
          = Except.ok (some (memory ++ [ChatMessage.user query, ChatMessage.ai ans]), res)
        ∧ res.response = ans := by
  unfold process_query
  simp only [hinv]
  exact ⟨_, rfl, rfl⟩

theorem routeLLMFallback_mem_valid (c : ClassifierResult) (jl : String → RoutingParse) :
    valid_agents.contains (routeLLMFallback c jl) = true := by
  cases c with
  | callError => rfl
  | reply content =>
      cases hE : extractJson content with
      | none =>
          simp only [routeLLMFallback, hE]
          rfl
      | some js =>
          cases hJ : jl js with
          | decodeError =>
              simp only [routeLLMFallback, hE, hJ]
              rfl
          | parsed p =>
              cases hc : valid_agents.contains p with
              | false =>
                  simp only [routeLLMFallback, hE, hJ, hc]
                  rfl
              | true =>
                  simp only [routeLLMFallback, hE, hJ, hc, if_true]

theorem route_query_mem_factory (q : String) (c : ClassifierResult)
    (jl : String → RoutingParse) :
    factory_agents.contains (route_query q c jl).agent = true := by
  simp only [route_query]
  repeat' split
  all_goals first
    | exact routeLLMFallback_mem_valid c jl
    | rfl

/-- C4 (amended): on a turn whose reasoning step raises, the conversation
history of the session is untouched — the user query and answer are
appended only after success — but the bookkeeping fields are already
mutated before the failure: message_count is incremented and agents_used
may have gained the selected agent. -/
theorem failed_turn_session_state (sessions : List (String × Session)) (request : ChatRequest)
    (freshId now : String) (classifier : ClassifierResult) (jsonLoads : String → RoutingParse)
    (svc : VectorStoreService) (simScore : FAISS → String → Nat → List (LCDocument × ℚ))
    (agentInvoke : String → String → List ChatMessage → Except Unit String)
    (sid : String) (s0 : Session)
    (hsid : pyOr request.session_id freshId = sid)
    (hfound : dictGet sessions sid = some s0)
    (hfail : ∀ a q h, agentInvoke a q h = Except.error ()) :
    (∃ e, (send_message sessions request freshId now classifier jsonLoads svc simScore
        agentInvoke).result = Except.error e) ∧
    ∀ s1, dictGet (send_message sessions request freshId now classifier jsonLoads svc
        simScore agentInvoke).sessions sid = some s1 →
      s1.memoryMessages = s0.memoryMessages ∧
      s1.message_count = s0.message_count + 1 ∧
      (s1.agents_used = s0.agents_used ∨
        ∃ a, s1.agents_used = s0.agents_used ++ [a]) := by
  have hc : dictContains sessions sid = true := dictContains_of_get hfound
  have hpq : ∀ sel mem inc, process_query sel svc simScore (agentInvoke sel)
      request.message mem inc = Except.error () :=
    fun sel mem inc => process_query_raises sel svc simScore (agentInvoke sel)
      request.message mem inc (fun q h => hfail sel q h)
  simp only [send_message, hsid, hc, if_true, hfound, Option.getD_some, hpq]
  constructor
  · split
    · exact ⟨"Failed to process message", rfl⟩
    · exact ⟨"Failed to process message", rfl⟩
  · intro s1 h1
    split at h1 <;>
      (rw [dictGet_dictSet_same, Option.some_inj] at h1
       subst h1
       constructor
       · split <;> rfl
       · constructor
         · split <;> rfl
         · split
           · exact Or.inl rfl
           · exact Or.inr ⟨_, rfl⟩)

/-- C4 counterexample: on session s1 with message_count 3 and a valid
medical override, a turn whose reasoning step raises still leaves
message_count at 4 — the bookkeeping is mutated by the failing turn,
against the claim that it is unchanged. -/
theorem failed_turn_mutates_bookkeeping :
    (∃ e, (send_message sampleSessions overrideFailRequest "f9" "t1" .callError
        (fun _ => .decodeError) emptySvc emptyOracle failingInvoke).result
          = Except.error e) ∧
    (dictGet (send_message sampleSessions overrideFailRequest "f9" "t1" .callError
        (fun _ => .decodeError) emptySvc emptyOracle failingInvoke).sessions "s1").map
          Session.message_count = some 4 ∧
    (4 : Nat) ≠ 3 :=
  ⟨⟨"Failed to process message", rfl⟩, rfl, by decide⟩

theorem failed_turn_session_state_witness :
    (∃ e, (send_message sampleSessions overrideFailRequest "f9" "t1" .callError
        (fun _ => .decodeError) emptySvc emptyOracle failingInvoke).result
          = Except.error e) ∧
    ∀ s1, dictGet (send_message sampleSessions overrideFailRequest "f9" "t1" .callError
        (fun _ => .decodeError) emptySvc emptyOracle failingInvoke).sessions "s1"
          = some s1 →
      s1.memoryMessages = (Session.mk [] "t0" 3 ["general"]).memoryMessages ∧
      s1.message_count = (Session.mk [] "t0" 3 ["general"]).message_count + 1 ∧
      (s1.agents_used = (Session.mk [] "t0" 3 ["general"]).agents_used ∨
        ∃ a, s1.agents_used = (Session.mk [] "t0" 3 ["general"]).agents_used ++ [a]) :=
  failed_turn_session_state sampleSessions overrideFailRequest "f9" "t1" .callError
    (fun _ => .decodeError) emptySvc emptyOracle failingInvoke "s1"
    (Session.mk [] "t0" 3 ["general"]) rfl rfl (fun a q h => rfl)

/-- C6 (amended): send_message bypasses the router whenever agent_override
is present and non-empty — valid or not — and dispatches to the override
name; the router resolves the agent only when the override is absent or
the empty string. -/
theorem agent_override_semantics (sessions : List (String × Session)) (request : ChatRequest)
    (freshId now : String) (classifier : ClassifierResult) (jsonLoads : String → RoutingParse)
    (svc : VectorStoreService) (simScore : FAISS → String → Nat → List (LCDocument × ℚ))
    (agentInvoke : String → String → List ChatMessage → Except Unit String) :
    (∀ ov, request.agent_override = some ov → ov ≠ "" →
      (send_message sessions request freshId now classifier jsonLoads svc simScore
          agentInvoke).routerInvoked = false ∧
      (send_message sessions request freshId now classifier jsonLoads svc simScore
          agentInvoke).selectedAgent = ov) ∧
    ((request.agent_override = none ∨ request.agent_override = some "") →
      (send_message sessions request freshId now classifier jsonLoads svc simScore
          agentInvoke).routerInvoked = true ∧
      (send_message sessions request freshId now classifier jsonLoads svc simScore
          agentInvoke).selectedAgent
        = (route_query request.message classifier jsonLoads).agent) := by
  constructor
  · intro ov hov hne
    simp only [send_message, hov]
    rw [if_neg hne]
    exact ⟨rfl, rfl⟩
  · intro hcase
    rcases hcase with hov | hov
    · simp [send_message, hov]
    · simp [send_message, hov]

/-- C6 counterexample: with the override bogus — present but outside the
six valid identities — send_message does not invoke the router, although
the claim says an invalid override is resolved by the router: the query
alone would route to real_estate, yet the turn dispatches to bogus and
fails with the unknown-agent error. -/
theorem invalid_override_skips_router :
    (send_message [] bogusOverrideRequest "f1" "t0" .callError (fun _ => .decodeError)
        emptySvc emptyOracle okInvoke).routerInvoked = false ∧
    (send_message [] bogusOverrideRequest "f1" "t0" .callError (fun _ => .decodeError)
        emptySvc emptyOracle okInvoke).selectedAgent = "bogus" ∧
    factory_agents.contains "bogus" = false ∧
    (route_query "rent a flat near the center" .callError
        (fun _ => .decodeError)).agent = "real_estate" ∧
    ∃ e, (send_message [] bogusOverrideRequest "f1" "t0" .callError (fun _ => .decodeError)
        emptySvc emptyOracle okInvoke).result = Except.error e :=
  ⟨rfl, rfl, by decide, by decide, ⟨"Failed to process message", rfl⟩⟩

theorem agent_override_semantics_witness :
    (send_message [] medicalOverrideRequest "f1" "t0" .callError (fun _ => .decodeError)
        emptySvc emptyOracle okInvoke).routerInvoked = false ∧
    (send_message [] medicalOverrideRequest "f1" "t0" .callError (fun _ => .decodeError)
        emptySvc emptyOracle okInvoke).selectedAgent = "medical" :=
  (agent_override_semantics [] medicalOverrideRequest "f1" "t0" .callError
    (fun _ => .decodeError) emptySvc emptyOracle okInvoke).1 "medical" rfl (by decide)

theorem send_message_success_shape (sessions : List (String × Session))
    (request : ChatRequest) (freshId now : String) (classifier : ClassifierResult)
    (jsonLoads : String → RoutingParse) (svc : VectorStoreService)
    (simScore : FAISS → String → Nat → List (LCDocument × ℚ))
    (agentInvoke : String → String → List ChatMessage → Except Unit String)
    (ans sid : String) (s0 : Session)
    (hsid : pyOr request.session_id freshId = sid)
    (hov : request.agent_override = none)
    (hinv : ∀ a q h, agentInvoke a q h = Except.ok ans)
    (hbase : (dictContains sessions sid = false ∧ s0 = newSession now)
      ∨ dictGet sessions sid = some s0) :
    (∃ resp, (send_message sessions request freshId now classifier jsonLoads svc simScore
        agentInvoke).result = Except.ok resp ∧ resp.session_id = sid) ∧
    (send_message sessions request freshId now classifier jsonLoads svc simScore
        agentInvoke).selectedAgent
      = (route_query request.message classifier jsonLoads).agent ∧
    dictGet (send_message sessions request freshId now classifier jsonLoads svc simScore
        agentInvoke).sessions sid = some
      { memoryMessages := s0.memoryMessages ++
          [ChatMessage.user request.message, ChatMessage.ai ans],
        created_at := s0.created_at,
        message_count := s0.message_count + 1,
        agents_used :=
          if (route_query request.message classifier jsonLoads).agent ∈ s0.agents_used
          then s0.agents_used
          else s0.agents_used ++
            [(route_query request.message classifier jsonLoads).agent] } := by
  have hone : dictGet (if dictContains sessions sid then sessions
      else dictSet sessions sid (newSession now)) sid = some s0 := by
    rcases hbase with ⟨hc, hs⟩ | hg
    · rw [hc]
      simp only [Bool.false_eq_true, if_false]
      rw [dictGet_dictSet_same, hs]
    · rw [dictContains_of_get hg]
      simpa using hg
  have hmm2 : ∀ (c : Prop) [inst : Decidable c] (mA : List ChatMessage) (cA : String)
      (nA : Nat) (aA aB : List String),
      (if c then Session.mk mA cA nA aA else Session.mk mA cA nA aB).memoryMessages
        = mA := by
    intro c inst mA cA nA aA aB
    split <;> rfl
  simp only [send_message, hsid, hov]
  rw [hone]
  simp only [Option.getD_some]
  rw [if_pos (route_query_mem_factory request.message classifier jsonLoads)]
  rw [hmm2]
  obtain ⟨res, hr, hresp⟩ := process_query_succeeds
    (route_query request.message classifier jsonLoads).agent svc simScore
    (agentInvoke (route_query request.message classifier jsonLoads).agent)
    request.message s0.memoryMessages request.include_sources ans
    (fun q h => hinv (route_query request.message classifier jsonLoads).agent q h)
  rw [hr]
  refine ⟨⟨_, rfl, ?_⟩, ?_, ?_⟩
  · first
      | rfl
      | trivial
  · first
      | rfl
      | trivial
  · rw [dictGet_dictSet_same]
    by_cases hm : (route_query request.message classifier jsonLoads).agent ∈ s0.agents_used
    · simp [hm]
    · simp [hm]

/-- C7: a call with no session id creates a session whose message count is
1 and whose agents_used is exactly the singleton of the selected agent; a
second call with that session id leaves the count at 2 — assuming the
queries find an agent through the router and the reasoning step answers. -/
theorem session_lifecycle_turn_count (sessions : List (String × Session))
    (req1 req2 : ChatRequest) (freshId1 freshId2 now1 now2 : String)
    (classifier : ClassifierResult) (jsonLoads : String → RoutingParse)
    (svc : VectorStoreService) (simScore : FAISS → String → Nat → List (LCDocument × ℚ))
    (agentInvoke : String → String → List ChatMessage → Except Unit String) (ans : String)
    (h1 : req1.session_id = none) (hov1 : req1.agent_override = none)
    (hfresh : dictContains sessions freshId1 = false) (hne : freshId1 ≠ "")
    (h2 : req2.session_id = some freshId1) (hov2 : req2.agent_override = none)
    (hinv : ∀ a q h, agentInvoke a q h = Except.ok ans) :
    (∃ resp, (send_message sessions req1 freshId1 now1 classifier jsonLoads svc simScore
        agentInvoke).result = Except.ok resp ∧ resp.session_id = freshId1) ∧
    (dictGet (send_message sessions req1 freshId1 now1 classifier jsonLoads svc simScore
        agentInvoke).sessions freshId1).map Session.message_count = some 1 ∧
    (dictGet (send_message sessions req1 freshId1 now1 classifier jsonLoads svc simScore
        agentInvoke).sessions freshId1).map Session.agents_used
      = some [(send_message sessions req1 freshId1 now1 classifier jsonLoads svc simScore
          agentInvoke).selectedAgent] ∧
    (dictGet (send_message (send_message sessions req1 freshId1 now1 classifier jsonLoads
        svc simScore agentInvoke).sessions req2 freshId2 now2 classifier jsonLoads svc
        simScore agentInvoke).sessions freshId1).map Session.message_count = some 2 := by
  have hsid1 : pyOr req1.session_id freshId1 = freshId1 := by
    rw [h1]
    rfl
  obtain ⟨hres1, hsel1, hget1⟩ := send_message_success_shape sessions req1 freshId1 now1
    classifier jsonLoads svc simScore agentInvoke ans freshId1 (newSession now1)
    hsid1 hov1 hinv (Or.inl ⟨hfresh, rfl⟩)
  have hsid2 : pyOr req2.session_id freshId2 = freshId1 := by
    rw [h2]
    simp [pyOr, hne]
  obtain ⟨hres2, hsel2, hget2⟩ := send_message_success_shape
    (send_message sessions req1 freshId1 now1 classifier jsonLoads svc simScore
      agentInvoke).sessions req2 freshId2 now2
    classifier jsonLoads svc simScore agentInvoke ans freshId1
    { memoryMessages := (newSession now1).memoryMessages ++
        [ChatMessage.user req1.message, ChatMessage.ai ans],
      created_at := (newSession now1).created_at,
      message_count := (newSession now1).message_count + 1,
      agents_used :=
        if (route_query req1.message classifier jsonLoads).agent
            ∈ (newSession now1).agents_used
        then (newSession now1).agents_used
        else (newSession now1).agents_used ++
          [(route_query req1.message classifier jsonLoads).agent] }
    hsid2 hov2 hinv (Or.inr hget1)
  refine ⟨hres1, ?_, ?_, ?_⟩
  · rw [hget1]
    simp [newSession]
  · rw [hget1, hsel1]
    simp [newSession]
  · rw [hget2]
    simp [newSession]

theorem session_lifecycle_turn_count_witness :
    (∃ resp, (send_message [] firstTurnRequest "f1" "t1" .callError
        (fun _ => .decodeError) emptySvc emptyOracle okInvoke).result = Except.ok resp
      ∧ resp.session_id = "f1") ∧
    (dictGet (send_message [] firstTurnRequest "f1" "t1" .callError
        (fun _ => .decodeError) emptySvc emptyOracle okInvoke).sessions "f1").map
        Session.message_count = some 1 ∧
    (dictGet (send_message [] firstTurnRequest "f1" "t1" .callError
        (fun _ => .decodeError) emptySvc emptyOracle okInvoke).sessions "f1").map
        Session.agents_used
      = some [(send_message [] firstTurnRequest "f1" "t1" .callError
          (fun _ => .decodeError) emptySvc emptyOracle okInvoke).selectedAgent] ∧
    (dictGet (send_message (send_message [] firstTurnRequest "f1" "t1" .callError
        (fun _ => .decodeError) emptySvc emptyOracle okInvoke).sessions secondTurnRequest
        "f2" "t2" .callError (fun _ => .decodeError) emptySvc emptyOracle
        okInvoke).sessions "f1").map Session.message_count = some 2 :=
  session_lifecycle_turn_count [] firstTurnRequest secondTurnRequest "f1" "f2" "t1" "t2"
    .callError (fun _ => .decodeError) emptySvc emptyOracle okInvoke "the answer"
    rfl rfl rfl (by decide) rfl rfl (fun a q h => rfl)
